import Mathlib

/-!
Verification development for the navcore platform repository.

The repository's shipped source is the React/TypeScript frontend of a
multi-club NAV accounting platform.  The pure computational helpers of
that frontend (src/lib/utils.ts and src/lib/feedback.ts, the ledger view
gating in LedgerView, the close checklist view in CloseMonthView) are
embedded below directly from the source.  JavaScript numbers are
represented by exact rationals; every counterexample below is evaluated
at inputs on which IEEE double arithmetic and rational arithmetic agree
exactly, so the divergences shown are structural, not artifacts of the
number representation.

The backend NAV engine (allocation, reconciliation gate, period state
machine, snapshot builder) is not part of the shipped source - only its
documentation and its frontend callers are.  Definitions whose doc
comment starts with "Modelled from the spec:" reconstruct that missing
engine faithfully from the specification's own words (sections 4.1-4.7),
and theorems about them are marked accordingly.
-/

/-! ## Fixed-precision rounding (spec section 4.1) -/

/-- Floor of a rational number as an integer, computed from the reduced
numerator and denominator with flooring integer division. -/
def qfloor (q : ℚ) : ℤ :=
  q.num.fdiv (q.den : ℤ)

/-- Modelled from the spec: the Monetary Arithmetic Utility's single
rounding policy - round-half-up at a target decimal scale (scale 2 for
money, scale 6 for ownership fractions).  Also used to state the claims
that speak of values "rounded to n decimals". -/
def roundTo (scale : ℕ) (q : ℚ) : ℚ :=
  ((qfloor (q * (10 : ℚ) ^ scale + 1 / 2) : ℚ)) / (10 : ℚ) ^ scale

/-! ## Frontend calculation helpers (src/lib/utils.ts) -/

/-- Embeds calculateOwnership from src/lib/utils.ts: returns 0 when the
club opening NAV is 0, otherwise the opening balance divided by the club
opening NAV, times 100 (a percentage).  No rounding is applied. -/
def calculateOwnership (openingBalance totalOpeningNAV : ℚ) : ℚ :=
  if totalOpeningNAV = 0 then 0 else openingBalance / totalOpeningNAV * 100

/-- Embeds calculateNetAllocation from src/lib/utils.ts: the ownership
percentage divided by 100, times the net income (total income minus
total expenses).  No intermediate rounding is applied. -/
def calculateNetAllocation (ownership totalIncome totalExpenses : ℚ) : ℚ :=
  ownership / 100 * (totalIncome - totalExpenses)

/-- Embeds calculateClosingBalance from src/lib/utils.ts: opening
balance plus contribution minus withdrawal plus net allocation.  The
function takes no adjustment argument. -/
def calculateClosingBalance (openingBalance contribution withdrawal netAllocation : ℚ) : ℚ :=
  openingBalance + contribution - withdrawal + netAllocation

/-- The ownership formula exactly as claim C2 words it: opening balance
divided by club opening NAV rounded to 6 decimals, 0 on a zero
denominator.  Stated for comparison against calculateOwnership. -/
def claimedOwnership (openingBalance totalOpeningNAV : ℚ) : ℚ :=
  if totalOpeningNAV = 0 then 0 else roundTo 6 (openingBalance / totalOpeningNAV)

/-- The net-allocation formula exactly as claim C3 words it: the income
share and the expense share each rounded to money scale before the
subtraction.  Stated for comparison against calculateNetAllocation. -/
def claimedNetAllocation (ownership totalIncome totalExpenses : ℚ) : ℚ :=
  roundTo 2 (ownership * totalIncome) - roundTo 2 (ownership * totalExpenses)

/-- The closing-balance formula exactly as claim C4 words it, including
the investor adjustment total as a term.  Stated for comparison against
calculateClosingBalance. -/
def claimedClosingBalance (openingBalance netAllocation contributions withdrawals adjustmentTotal : ℚ) : ℚ :=
  openingBalance + netAllocation + contributions - withdrawals + adjustmentTotal

/-! ## Money input parsing (src/lib/feedback.ts) -/

/-- Embeds the comma removal of parseMoneyInput:
raw.replaceAll(',', '') removes every comma from the string. -/
def stripCommas (s : String) : String :=
  String.mk (s.data.filter (fun c => c != ','))

/-- Model of the JavaScript string trim method: drop whitespace
characters from both ends of the string. -/
def jsTrim (s : String) : String :=
  String.mk (((s.data.dropWhile Char.isWhitespace).reverse.dropWhile Char.isWhitespace).reverse)

/-- Digit characters to the natural number they denote, most significant
first. -/
def digitsVal (ds : List Char) : ℕ :=
  ds.foldl (fun n c => 10 * n + (c.toNat - 48)) 0

/-- Model of the JavaScript runtime conversion Number(s) applied to an
already comma-free, whitespace-trimmed string, restricted to finite
results: an optional sign followed by a decimal literal (digits,
digits.digits, .digits or digits.).  Returns none where the runtime
yields NaN or an infinity; the runtime's hexadecimal, exponent and
Infinity forms do not occur among the money inputs this model is used
on and are mapped to none. -/
def jsNumberFinite (s : String) : Option ℚ :=
  let signed : ℚ × List Char :=
    match s.data with
    | '-' :: r => (-1, r)
    | '+' :: r => (1, r)
    | r => (1, r)
  let sign := signed.1
  let body := signed.2
  let intPart := body.takeWhile Char.isDigit
  let rest := body.dropWhile Char.isDigit
  match rest with
  | [] =>
      if intPart.isEmpty then none
      else some (sign * (digitsVal intPart : ℚ))
  | '.' :: frac =>
      if frac.all Char.isDigit && !(intPart.isEmpty && frac.isEmpty) then
        some (sign * ((digitsVal intPart : ℚ) + (digitsVal frac : ℚ) / (10 : ℚ) ^ frac.length))
      else none
  | _ => none

/-- Embeds parseMoneyInput from src/lib/feedback.ts: null on an empty
input, otherwise remove all commas and trim, null when the normalized
string is empty or does not convert to a finite number, otherwise the
converted number. -/
def parseMoneyInput (raw : String) : Option ℚ :=
  if raw = "" then none
  else
    let normalized := jsTrim (stripCommas raw)
    if normalized = "" then none
    else
      match jsNumberFinite normalized with
      | none => none
      | some value => some value

/-- The documented example input for parseMoneyInput. -/
def moneySample : String := "2,500,000"

/-! ## Ledger entry validation (src LedgerView, validateEntryInput) -/

/-- The five ledger entry types of ENTRY_TYPES in LedgerView. -/
inductive EntryType
  | contribution
  | withdrawal
  | income
  | expense
  | adjustment
deriving DecidableEq

/-- The display name of an entry type, as interpolated into the
validation messages. -/
def entryTypeName : EntryType → String
  | EntryType.contribution => "contribution"
  | EntryType.withdrawal => "withdrawal"
  | EntryType.income => "income"
  | EntryType.expense => "expense"
  | EntryType.adjustment => "adjustment"

/-- Embeds the requiresInvestor memo of LedgerView: contribution,
withdrawal and adjustment entries must reference an investor. -/
def requiresInvestor (t : EntryType) : Bool :=
  t == EntryType.contribution || t == EntryType.withdrawal || t == EntryType.adjustment

/-- Result of validateEntryInput: either the parsed amount with the
trimmed description, or a validation message. -/
inductive ValidationResult
  | ok (amount : ℚ) (description : String)
  | err (message : String)
deriving DecidableEq

/-- Whether a validation result is the ok variant. -/
def ValidationResult.isOk : ValidationResult → Bool
  | ValidationResult.ok _ _ => true
  | ValidationResult.err _ => false

def msgNumeric : String := "Amount must be numeric. Example: 2500000 or 2,500,000."

def msgZero : String := "Amount cannot be zero. Use a value like 1500000."

def msgMustBePositive : String := " must be positive. Use adjustment for negative correction values."

def msgShortDescription : String := "Description is required (at least 3 characters). Example: \"Monthly management fee\"."

def msgSelectInvestorA : String := "Select an investor for "

def msgSelectInvestorB : String := " entries so allocations remain auditable."

/-- Embeds validateEntryInput from LedgerView (src/unnamed/part_007
lines 96-135): parse the amount, reject a failed parse, a zero amount,
a negative amount for any type but adjustment, a trimmed description
shorter than 3 characters, and a missing investor for the types that
require one; otherwise return the parsed amount and the trimmed
description. -/
def validateEntryInput (amountInput descInput selectedInvestorId : String)
    (t : EntryType) : ValidationResult :=
  match parseMoneyInput amountInput with
  | none => ValidationResult.err msgNumeric
  | some parsedAmount =>
    if parsedAmount = 0 then ValidationResult.err msgZero
    else if t ≠ EntryType.adjustment ∧ parsedAmount < 0 then
      ValidationResult.err (entryTypeName t ++ msgMustBePositive)
    else if (jsTrim descInput).length < 3 then ValidationResult.err msgShortDescription
    else if requiresInvestor t = true ∧ selectedInvestorId = "" then
      ValidationResult.err (msgSelectInvestorA ++ entryTypeName t ++ msgSelectInvestorB)
    else ValidationResult.ok parsedAmount (jsTrim descInput)

/-! ## Period status and ledger mutation gating (src LedgerView and
PlatformContext) -/

/-- The period lifecycle states of the platform. -/
inductive PeriodStatus
  | draft
  | review
  | closed
deriving DecidableEq

/-- Embeds the locked flag of PlatformContext: a period is locked
exactly when its status is closed. -/
def lockedFor (status : PeriodStatus) : Bool :=
  decide (status = PeriodStatus.closed)

/-- Embeds canEditEntries of LedgerView: entries may be edited while
the period is draft or review. -/
def canEditEntries (status : PeriodStatus) : Bool :=
  decide (status = PeriodStatus.draft) || decide (status = PeriodStatus.review)

/-- Embeds canDeleteEntries of LedgerView: entries may be deleted only
while the period is draft. -/
def canDeleteEntries (status : PeriodStatus) : Bool :=
  decide (status = PeriodStatus.draft)

/-- Embeds the early-return guard of handleSubmit in LedgerView: entry
creation proceeds only with a selected club and period and an unlocked
period. -/
def handleSubmitProceeds (hasClub hasPeriod : Bool) (status : PeriodStatus) : Bool :=
  hasClub && hasPeriod && !(lockedFor status)

/-- Embeds the early-return guard of openEdit in LedgerView: the edit
dialog opens only when editing is allowed and the period is unlocked. -/
def openEditProceeds (status : PeriodStatus) : Bool :=
  canEditEntries status && !(lockedFor status)

/-- Embeds the early-return guards of handleUpdateEntry in LedgerView:
the update proceeds only with a selected club, period and entry, an
unlocked period, and a status other than closed. -/
def handleUpdateProceeds (hasClub hasPeriod hasEditingEntry : Bool) (status : PeriodStatus) : Bool :=
  hasClub && hasPeriod && hasEditingEntry && !(lockedFor status) && !(decide (status = PeriodStatus.closed))

/-- Embeds the early-return guard of handleDeleteEntry in LedgerView:
the delete proceeds only with a selected club, period and target, an
unlocked period, and deletion allowed. -/
def handleDeleteProceeds (hasClub hasPeriod hasDeleteTarget : Bool) (status : PeriodStatus) : Bool :=
  hasClub && hasPeriod && hasDeleteTarget && !(lockedFor status) && canDeleteEntries status

/-! ## Close checklist (src CloseMonthView; aggregate modelled from the
spec) -/

/-- The five boolean conditions of the close checklist, as delivered to
the frontend. -/
structure CloseChecklistFlags where
  has_positions : Bool
  has_ledger_entries : Bool
  submitted_for_review : Bool
  reconciled : Bool
  not_already_closed : Bool
deriving DecidableEq

/-- Modelled from the spec: the backend aggregate can_close (section
4.6) is the conjunction of the five checklist conditions.  The backend
computing it is not part of the shipped source. -/
def can_close (c : CloseChecklistFlags) : Bool :=
  c.has_positions && c.has_ledger_entries && c.submitted_for_review &&
    c.reconciled && c.not_already_closed

/-- One row of the checklist display in CloseMonthView. -/
structure ChecklistRow where
  key : String
  label : String
  pass : Bool
deriving DecidableEq

/-- Embeds checklistRows of CloseMonthView (src/unnamed/part_008 lines
27-36): each checklist condition is exposed as its own row. -/
def checklistRows (c : CloseChecklistFlags) : List ChecklistRow :=
  [ { key := "has_positions", label := "Investor positions exist", pass := c.has_positions },
    { key := "has_ledger_entries", label := "Ledger entries posted", pass := c.has_ledger_entries },
    { key := "submitted_for_review", label := "Submitted for review", pass := c.submitted_for_review },
    { key := "reconciled", label := "Reconciliation exact", pass := c.reconciled },
    { key := "not_already_closed", label := "Period not already closed", pass := c.not_already_closed } ]

/-- Embeds the disabled condition of the Run Close button in
CloseMonthView (src/unnamed/part_008 line 183): the close action is
disabled while submitting, while locked, or while can_close is false. -/
def runCloseDisabled (submitting locked : Bool) (c : CloseChecklistFlags) : Bool :=
  submitting || locked || !(can_close c)

/-! ## Spec-modelled NAV engine (spec sections 4.2-4.7; the backend
implementing these is not part of the shipped source) -/

/-- Modelled from the spec: the Ledger Aggregator's club-level per-type
totals for a period (section 4.2). -/
structure ClubAggregates where
  contributions : ℚ
  withdrawals : ℚ
  income : ℚ
  expenses : ℚ
deriving DecidableEq

/-- Modelled from the spec: one investor's opening position together
with the Ledger Aggregator's per-investor totals for the period. -/
structure InvestorInput where
  opening_balance : ℚ
  contributions : ℚ
  withdrawals : ℚ
  adjustments : ℚ
deriving DecidableEq

/-- Modelled from the spec: the per-investor computed row for the
current period (data model InvestorPosition). -/
structure InvestorPosition where
  opening_balance : ℚ
  ownership_pct : ℚ
  income_share : ℚ
  expense_share : ℚ
  net_allocation : ℚ
  contributions : ℚ
  withdrawals : ℚ
  closing_balance : ℚ
deriving DecidableEq

/-- Modelled from the spec: the immutable per-investor closing row
written at close (data model InvestorBalance). -/
structure InvestorBalance where
  ownership_pct : ℚ
  closing_balance : ℚ
deriving DecidableEq

/-- Modelled from the spec: the immutable club-level close snapshot
(data model NavSnapshot) with its InvestorBalance rows. -/
structure NavSnapshot where
  closing_nav : ℚ
  balances : List InvestorBalance
deriving DecidableEq

/-- Modelled from the spec: Allocation Engine step 1 (section 4.3) -
ownership is the opening balance over the club opening NAV rounded to
6 decimals, 0 when the denominator is 0. -/
def ownershipPct (openingBalance clubOpeningNav : ℚ) : ℚ :=
  if clubOpeningNav = 0 then 0 else roundTo 6 (openingBalance / clubOpeningNav)

/-- Modelled from the spec: Allocation Engine steps 1-4 (section 4.3)
for a single investor - shares rounded to money scale, net allocation
their difference, closing balance the opening balance plus net
allocation plus contributions minus withdrawals plus adjustments. -/
def allocateInvestor (clubOpeningNav totalIncome totalExpenses : ℚ)
    (inv : InvestorInput) : InvestorPosition :=
  { opening_balance := inv.opening_balance
    ownership_pct := ownershipPct inv.opening_balance clubOpeningNav
    income_share := roundTo 2 (ownershipPct inv.opening_balance clubOpeningNav * totalIncome)
    expense_share := roundTo 2 (ownershipPct inv.opening_balance clubOpeningNav * totalExpenses)
    net_allocation := roundTo 2 (ownershipPct inv.opening_balance clubOpeningNav * totalIncome) -
      roundTo 2 (ownershipPct inv.opening_balance clubOpeningNav * totalExpenses)
    contributions := inv.contributions
    withdrawals := inv.withdrawals
    closing_balance := inv.opening_balance +
      (roundTo 2 (ownershipPct inv.opening_balance clubOpeningNav * totalIncome) -
        roundTo 2 (ownershipPct inv.opening_balance clubOpeningNav * totalExpenses)) +
      inv.contributions - inv.withdrawals + inv.adjustments }

/-- Modelled from the spec: Allocation Engine step 5 (section 4.3) -
the club-level closing NAV from the club aggregates alone. -/
def closingNav (openingNav : ℚ) (agg : ClubAggregates) : ℚ :=
  openingNav + agg.contributions - agg.withdrawals + agg.income - agg.expenses

/-- Modelled from the spec: the output of one allocation run - the
investor rows and the independently computed club closing NAV. -/
structure AllocationResult where
  positions : List InvestorPosition
  closing_nav : ℚ
deriving DecidableEq

/-- Modelled from the spec: the Allocation Engine over all investors of
a period.  The closing NAV comes from the club aggregates only, never
from the investor rows. -/
def allocatePeriod (openingNav : ℚ) (agg : ClubAggregates)
    (investors : List InvestorInput) : AllocationResult :=
  { positions := investors.map (allocateInvestor openingNav agg.income agg.expenses)
    closing_nav := closingNav openingNav agg }

/-- Sum of the closing balances of a list of investor rows. -/
def sumClosingBalances (positions : List InvestorPosition) : ℚ :=
  (positions.map InvestorPosition.closing_balance).sum

/-- Modelled from the spec: the Reconciliation Gate's transient result
(section 4.4). -/
structure ReconciliationResult where
  mismatch : ℚ
  reconciled : Bool
deriving DecidableEq

/-- Modelled from the spec: Reconciliation Gate (section 4.4) - the
mismatch is the club closing NAV minus the summed investor closing
balances, and reconciled holds exactly when the mismatch is zero, with
no epsilon tolerance. -/
def reconcile (clubClosingNav : ℚ) (positions : List InvestorPosition) : ReconciliationResult :=
  { mismatch := clubClosingNav - sumClosingBalances positions
    reconciled := decide (clubClosingNav - sumClosingBalances positions = 0) }

/-- Modelled from the spec: everything about a period the close path
reads - status, opening NAV, the aggregated ledger totals, the investor
inputs and the number of posted ledger entries. -/
structure PeriodData where
  status : PeriodStatus
  opening_nav : ℚ
  aggregates : ClubAggregates
  investors : List InvestorInput
  ledgerEntryCount : ℕ
deriving DecidableEq

/-- The allocation run for a period's current data. -/
def periodAllocation (p : PeriodData) : AllocationResult :=
  allocatePeriod p.opening_nav p.aggregates p.investors

/-- The reconciliation of a period's current allocation. -/
def periodReconciliation (p : PeriodData) : ReconciliationResult :=
  reconcile (periodAllocation p).closing_nav (periodAllocation p).positions

/-- Modelled from the spec: the five close-checklist conditions of a
period (section 4.6). -/
def periodChecklist (p : PeriodData) : CloseChecklistFlags :=
  { has_positions := decide (p.investors ≠ [])
    has_ledger_entries := decide (p.ledgerEntryCount ≠ 0)
    submitted_for_review := decide (p.status = PeriodStatus.review)
    reconciled := (periodReconciliation p).reconciled
    not_already_closed := decide (p.status ≠ PeriodStatus.closed) }

/-- The typed failures of the close transition (spec section 7). -/
inductive CloseError
  | stateError
  | reconciliationMismatch (mismatch : ℚ)
deriving DecidableEq

/-- Freezing one investor row into its immutable close record. -/
def freezeBalance (pos : InvestorPosition) : InvestorBalance :=
  { ownership_pct := pos.ownership_pct
    closing_balance := pos.closing_balance }

/-- Modelled from the spec: the close transition (sections 4.5-4.7) -
when the checklist passes, the Snapshot Builder materializes the
allocation into an immutable NavSnapshot with one InvestorBalance row
per investor position; a close from Review blocked by reconciliation
reports the exact mismatch; every other refusal is a state error. -/
def closePeriod (p : PeriodData) : Except CloseError NavSnapshot :=
  if can_close (periodChecklist p) = true then
    Except.ok { closing_nav := (periodAllocation p).closing_nav
                balances := (periodAllocation p).positions.map freezeBalance }
  else if p.status = PeriodStatus.review ∧ (periodReconciliation p).reconciled = false then
    Except.error (CloseError.reconciliationMismatch (periodReconciliation p).mismatch)
  else Except.error CloseError.stateError

/-- Scenario A of the spec: one investor owning the whole club. -/
def scenarioInvestor : InvestorInput :=
  { opening_balance := 10000000, contributions := 0, withdrawals := 0, adjustments := 0 }

/-- Scenario A of the spec: opening NAV 10,000,000, income 500,000,
expenses 100,000, submitted for review. -/
def scenarioPeriod : PeriodData :=
  { status := PeriodStatus.review
    opening_nav := 10000000
    aggregates := { contributions := 0, withdrawals := 0, income := 500000, expenses := 100000 }
    investors := [scenarioInvestor]
    ledgerEntryCount := 2 }

/-- The snapshot Scenario A produces: closing NAV 10,400,000 and a
single fully owning investor row. -/
def scenarioSnapshot : NavSnapshot :=
  { closing_nav := 10400000
    balances := [{ ownership_pct := 1, closing_balance := 10400000 }] }

/-- A sample description input, already trimmed. -/
def sampleDescription : String := "Monthly fee"

/-- The empty investor selection (no investor chosen). -/
def emptyInvestor : String := ""

/-- A sample selected investor id. -/
def investorOne : String := "1"

/-- A sample negative amount input. -/
def negativeAmount : String := "-5"

/-- A sample zero amount input. -/
def zeroAmount : String := "0"

/-! ## Theorems -/

/-- The hand-rolled rational floor agrees with the mathematical floor. -/
theorem qfloor_eq_floor (q : ℚ) : qfloor q = ⌊q⌋ := by
  rw [Rat.floor_def]
  unfold qfloor
  exact Int.fdiv_eq_ediv _ (by positivity)

/-- Round-half-up at any scale leaves an integer unchanged. -/
theorem roundTo_intCast (s : ℕ) (k : ℤ) : roundTo s ((k : ℚ)) = k := by
  unfold roundTo
  rw [qfloor_eq_floor]
  have h : ((k : ℚ) * (10 : ℚ) ^ s + 1 / 2) = ((k * 10 ^ s : ℤ) : ℚ) + 1 / 2 := by
    push_cast; ring
  have h2 : ⌊(1 / 2 : ℚ)⌋ = 0 := by
    rw [Int.floor_eq_iff]
    norm_num
  rw [h, Int.floor_int_add, h2, add_zero]
  push_cast
  rw [mul_div_cancel_right₀]
  positivity

/-- Round-half-up at any scale leaves a natural number unchanged. -/
theorem roundTo_natCast (s n : ℕ) : roundTo s ((n : ℚ)) = n := by
  have := roundTo_intCast s (n : ℤ)
  push_cast at this
  exact this

/-- C2 counterexample: at opening balance 1 and club opening NAV 2 the
source's calculateOwnership returns 50 (a percentage, unrounded), while
the claim's formula - the quotient rounded to 6 decimals - gives 1/2,
so the claim as stated is false at this input. -/
theorem calculateOwnership_claim_counterexample :
    calculateOwnership 1 2 = 50 ∧ claimedOwnership 1 2 = 1 / 2 ∧
      calculateOwnership 1 2 ≠ claimedOwnership 1 2 := by
  have h1 : calculateOwnership 1 2 = 50 := by norm_num [calculateOwnership]
  have h2 : claimedOwnership 1 2 = 1 / 2 := by
    norm_num [claimedOwnership, roundTo, qfloor]
    norm_num [show Int.fdiv 1000001 2 = 500000 from rfl]
  refine ⟨h1, h2, ?_⟩
  rw [h1, h2]
  norm_num

/-- C2 (amended): for every investor opening balance b and club opening
NAV n, calculateOwnership returns 0 when n = 0, and otherwise returns
(b / n) * 100 - a percentage with no rounding applied - so that
multiplying back by n recovers b * 100 exactly. -/
theorem calculateOwnership_amended (b n : ℚ) :
    (n = 0 → calculateOwnership b n = 0) ∧
      (n ≠ 0 → calculateOwnership b n = b / n * 100 ∧ calculateOwnership b n * n = b * 100) := by
  constructor
  · intro h
    simp [calculateOwnership, h]
  · intro h
    rw [calculateOwnership, if_neg h]
    exact ⟨rfl, by field_simp⟩

/-- C2 witness: the amended theorem evaluated at b = 1, n = 2. -/
theorem calculateOwnership_amended_witness :
    calculateOwnership 1 2 = 1 / 2 * 100 ∧ calculateOwnership 1 2 * 2 = 1 * 100 :=
  (calculateOwnership_amended 1 2).2 (by norm_num)

/-- C3 counterexample: at ownership 100, income 1, expenses 0 the
source's calculateNetAllocation returns 1 (it treats ownership as a
percentage and applies no rounding), while the claim's formula - the
shares each rounded to money scale before subtracting - gives 100, so
the claim as stated is false at this input. -/
theorem calculateNetAllocation_claim_counterexample :
    calculateNetAllocation 100 1 0 = 1 ∧ claimedNetAllocation 100 1 0 = 100 ∧
      calculateNetAllocation 100 1 0 ≠ claimedNetAllocation 100 1 0 := by
  have ha : roundTo 2 ((100 : ℚ) * 1) = 100 := by
    have := roundTo_natCast 2 100
    push_cast at this
    norm_num
    exact this
  have hb : roundTo 2 ((100 : ℚ) * 0) = 0 := by
    have := roundTo_natCast 2 0
    push_cast at this
    norm_num
    exact this
  have h1 : calculateNetAllocation 100 1 0 = 1 := by norm_num [calculateNetAllocation]
  have h2 : claimedNetAllocation 100 1 0 = 100 := by
    rw [claimedNetAllocation, ha, hb]
    norm_num
  refine ⟨h1, h2, ?_⟩
  rw [h1, h2]
  norm_num

/-- C3 (amended): for every ownership percentage p, club total income I
and club total expenses E, calculateNetAllocation returns
(p / 100) * I - (p / 100) * E - the unrounded income share minus the
unrounded expense share at percentage scale, with no rounding to money
scale - and in particular a fully owning investor is allocated exactly
I - E. -/
theorem calculateNetAllocation_amended (p i e : ℚ) :
    calculateNetAllocation p i e = p / 100 * i - p / 100 * e ∧
      calculateNetAllocation 100 i e = i - e := by
  constructor
  · rw [calculateNetAllocation]; ring
  · rw [calculateNetAllocation]; norm_num

/-- C4 counterexample: the source's calculateClosingBalance takes no
adjustment term, so with every other quantity 0 and an investor
adjustment total of 1 the claim's formula gives 1 while the code gives
0; the claim as stated is false at this input. -/
theorem calculateClosingBalance_claim_counterexample :
    calculateClosingBalance 0 0 0 0 = 0 ∧ claimedClosingBalance 0 0 0 0 1 = 1 ∧
      calculateClosingBalance 0 0 0 0 ≠ claimedClosingBalance 0 0 0 0 1 := by
  refine ⟨?_, ?_, ?_⟩ <;> norm_num [calculateClosingBalance, claimedClosingBalance]

/-- C4 (amended): for every investor, calculateClosingBalance o c w n
equals opening_balance + net_allocation + contributions - withdrawals;
the investor adjustment total is not part of this computation. -/
theorem calculateClosingBalance_amended (o c w n : ℚ) :
    calculateClosingBalance o c w n = o + n + c - w := by
  rw [calculateClosingBalance]; ring

/-- C5: for every opening NAV, club aggregates and investor list, the
spec-modelled allocation's club closing NAV equals opening_nav +
total_contributions - total_withdrawals + total_income -
total_expenses, and it is independent of the investor rows: any two
investor lists yield the same closing NAV from the same aggregates. -/
theorem closing_nav_from_aggregates (nav : ℚ) (agg : ClubAggregates)
    (invs invs' : List InvestorInput) :
    (allocatePeriod nav agg invs).closing_nav =
        nav + agg.contributions - agg.withdrawals + agg.income - agg.expenses ∧
      (allocatePeriod nav agg invs).closing_nav = (allocatePeriod nav agg invs').closing_nav :=
  ⟨rfl, rfl⟩

/-- C6: the close-checklist aggregate can_close (modelled from the
spec, since the backend is not in the shipped source) is true exactly
when all five conditions hold; checklistRows from CloseMonthView
exposes each condition as its own row; and whenever any single
condition is false the Run Close button of CloseMonthView is disabled,
blocking the close action. -/
theorem close_checklist_gate (c : CloseChecklistFlags) (submitting locked : Bool) :
    (can_close c = true ↔
      (c.has_positions = true ∧ c.has_ledger_entries = true ∧ c.submitted_for_review = true ∧
        c.reconciled = true ∧ c.not_already_closed = true)) ∧
      checklistRows c =
        [ { key := "has_positions", label := "Investor positions exist", pass := c.has_positions },
          { key := "has_ledger_entries", label := "Ledger entries posted", pass := c.has_ledger_entries },
          { key := "submitted_for_review", label := "Submitted for review", pass := c.submitted_for_review },
          { key := "reconciled", label := "Reconciliation exact", pass := c.reconciled },
          { key := "not_already_closed", label := "Period not already closed", pass := c.not_already_closed } ] ∧
      ((c.has_positions = false ∨ c.has_ledger_entries = false ∨ c.submitted_for_review = false ∨
          c.reconciled = false ∨ c.not_already_closed = false) →
        runCloseDisabled submitting locked c = true) := by
  refine ⟨?_, rfl, ?_⟩
  · cases c
    simp [can_close, Bool.and_eq_true, and_assoc]
  · intro h
    cases c
    rcases h with h | h | h | h | h <;>
      simp_all [runCloseDisabled, can_close]

/-- C6 witness: with the submitted-for-review condition false, the
aggregate is false and the close action is disabled. -/
theorem close_checklist_gate_witness :
    runCloseDisabled false false
      { has_positions := true, has_ledger_entries := true, submitted_for_review := false,
        reconciled := true, not_already_closed := true } = true :=
  (close_checklist_gate
      { has_positions := true, has_ledger_entries := true, submitted_for_review := false,
        reconciled := true, not_already_closed := true } false false).2.2
    (Or.inr (Or.inr (Or.inl rfl)))

/-- C7: in LedgerView an entry can be edited only while the period
status is draft or review (the edit dialog guard), deleted only while
it is draft (the delete guard), and when the period is closed the
create, edit and delete handlers are all blocked by their early-return
guards, so no ledger mutation is possible on a closed period. -/
theorem ledger_mutation_gating (status : PeriodStatus) (hasClub hasPeriod hasEntry : Bool) :
    (openEditProceeds status = true → status = PeriodStatus.draft ∨ status = PeriodStatus.review) ∧
      (handleDeleteProceeds hasClub hasPeriod hasEntry status = true → status = PeriodStatus.draft) ∧
      (status = PeriodStatus.closed →
        handleSubmitProceeds hasClub hasPeriod status = false ∧
          openEditProceeds status = false ∧
          handleUpdateProceeds hasClub hasPeriod hasEntry status = false ∧
          handleDeleteProceeds hasClub hasPeriod hasEntry status = false) := by
  revert hasClub hasPeriod hasEntry
  cases status <;> decide

/-- C7 witness: the closed status blocks all four mutation paths, and a
successful delete guard at draft status certifies the draft-only delete
rule. -/
theorem ledger_mutation_gating_witness :
    (handleSubmitProceeds true true PeriodStatus.closed = false ∧
        openEditProceeds PeriodStatus.closed = false ∧
        handleUpdateProceeds true true true PeriodStatus.closed = false ∧
        handleDeleteProceeds true true true PeriodStatus.closed = false) ∧
      PeriodStatus.draft = PeriodStatus.draft :=
  ⟨(ledger_mutation_gating PeriodStatus.closed true true true).2.2 rfl,
    (ledger_mutation_gating PeriodStatus.draft true true true).2.1 rfl⟩

/-- C8: validateEntryInput fails (so the entry is never posted, since
handleSubmit posts only on a passing validation) whenever the entry
type requires positivity (any type other than adjustment) and the
parsed amount is non-positive, and whenever the entry type requires an
investor reference (contribution, withdrawal or adjustment) and no
investor is selected. -/
theorem validateEntryInput_rejections (amountInput descInput selectedInvestorId : String)
    (t : EntryType) :
    (∀ v, parseMoneyInput amountInput = some v → t ≠ EntryType.adjustment → v ≤ 0 →
      (validateEntryInput amountInput descInput selectedInvestorId t).isOk = false) ∧
      (requiresInvestor t = true → selectedInvestorId = "" →
        (validateEntryInput amountInput descInput selectedInvestorId t).isOk = false) := by
  constructor
  · intro v hv hne hle
    unfold validateEntryInput
    rw [hv]
    dsimp only
    split_ifs with h1 h2 h3 h4 <;> try rfl
    exact absurd ⟨hne, lt_of_le_of_ne hle h1⟩ h2
  · intro hr hi
    unfold validateEntryInput
    cases hp : parseMoneyInput amountInput with
    | none => rfl
    | some v =>
      dsimp only
      split_ifs with h1 h2 h3 h4 <;> try rfl
      exact absurd ⟨hr, hi⟩ h4

/-- C8 witness: a negative contribution amount is rejected, and a
withdrawal with no investor selected is rejected. -/
theorem validateEntryInput_rejections_witness :
    (validateEntryInput negativeAmount sampleDescription investorOne EntryType.contribution).isOk = false ∧
      (validateEntryInput moneySample sampleDescription emptyInvestor EntryType.withdrawal).isOk = false := by
  have hneg : parseMoneyInput negativeAmount = some (-5) := by
    have key : parseMoneyInput negativeAmount =
        some ((-1 : ℚ) * ((digitsVal ['5'] : ℕ) : ℚ)) := rfl
    have d : (digitsVal ['5'] : ℕ) = 5 := rfl
    rw [key, d]
    norm_num
  refine ⟨?_, ?_⟩
  · exact (validateEntryInput_rejections negativeAmount sampleDescription investorOne
      EntryType.contribution).1 (-5) hneg (by decide) (by norm_num)
  · exact (validateEntryInput_rejections moneySample sampleDescription emptyInvestor
      EntryType.withdrawal).2 rfl rfl

/-- C9: validateEntryInput rejects a parsed amount of zero for every
entry type (adjustment included), rejects any description whose trimmed
length is below 3 characters, and every input it accepts is returned
with the trimmed description and with the amount produced by
parseMoneyInput on the comma-stripped numeric input. -/
theorem validateEntryInput_zero_description_output
    (amountInput descInput selectedInvestorId : String) (t : EntryType) :
    (parseMoneyInput amountInput = some 0 →
      (validateEntryInput amountInput descInput selectedInvestorId t).isOk = false) ∧
      ((jsTrim descInput).length < 3 →
        (validateEntryInput amountInput descInput selectedInvestorId t).isOk = false) ∧
      (∀ v dsc, validateEntryInput amountInput descInput selectedInvestorId t =
          ValidationResult.ok v dsc →
        dsc = jsTrim descInput ∧ parseMoneyInput amountInput = some v) := by
  refine ⟨?_, ?_, ?_⟩
  · intro hv
    unfold validateEntryInput
    rw [hv]
    dsimp only
    split_ifs with h1 <;> try rfl
    all_goals exact absurd rfl h1
  · intro hlen
    unfold validateEntryInput
    cases hp : parseMoneyInput amountInput with
    | none => rfl
    | some v =>
      dsimp only
      split_ifs <;> rfl
  · intro v dsc hok
    unfold validateEntryInput at hok
    cases hp : parseMoneyInput amountInput with
    | none =>
      rw [hp] at hok
      exact ValidationResult.noConfusion hok
    | some w =>
      rw [hp] at hok
      dsimp only at hok
      split_ifs at hok
      all_goals first
        | exact ValidationResult.noConfusion hok
        | (injection hok with h1 h2; exact ⟨h2.symm, by rw [h1]⟩)

/-- C9 witness: a zero adjustment amount is rejected, and a valid
contribution input is returned with the trimmed description and the
comma-stripped parsed amount. -/
theorem validateEntryInput_zero_description_output_witness :
    ((validateEntryInput zeroAmount sampleDescription investorOne EntryType.adjustment).isOk = false) ∧
      (sampleDescription = jsTrim sampleDescription ∧
        parseMoneyInput moneySample = some 2500000) := by
  have hzero : parseMoneyInput zeroAmount = some 0 := by
    have key : parseMoneyInput zeroAmount =
        some ((1 : ℚ) * ((digitsVal ['0'] : ℕ) : ℚ)) := rfl
    have d : (digitsVal ['0'] : ℕ) = 0 := rfl
    rw [key, d]
    norm_num
  have hparse : parseMoneyInput moneySample = some 2500000 := by
    have key : parseMoneyInput moneySample =
        some ((1 : ℚ) * ((digitsVal ['2', '5', '0', '0', '0', '0', '0'] : ℕ) : ℚ)) := rfl
    have d : (digitsVal ['2', '5', '0', '0', '0', '0', '0'] : ℕ) = 2500000 := rfl
    rw [key, d]
    norm_num
  have hok : validateEntryInput moneySample sampleDescription investorOne EntryType.contribution =
      ValidationResult.ok 2500000 sampleDescription := by
    unfold validateEntryInput
    rw [hparse]
    dsimp only
    rw [if_neg (by norm_num), if_neg (fun h => absurd h.2 (by norm_num)),
      if_neg (by decide), if_neg (fun h => absurd h.2 (by decide)),
      show jsTrim sampleDescription = sampleDescription from by decide]
  refine ⟨?_, ?_⟩
  · exact (validateEntryInput_zero_description_output zeroAmount sampleDescription investorOne
      EntryType.adjustment).1 hzero
  · exact (validateEntryInput_zero_description_output moneySample sampleDescription investorOne
      EntryType.contribution).2.2 2500000 sampleDescription hok

/-- C10: parseMoneyInput returns null exactly when the raw input is
empty, or the comma-stripped and trimmed input is empty, or the
normalized input does not convert to a finite number; otherwise it
returns the converted number, and in particular the documented input
2,500,000 parses to 2500000. -/
theorem parseMoneyInput_spec (raw : String) :
    (parseMoneyInput raw = none ↔
      (raw = "" ∨ jsTrim (stripCommas raw) = "" ∨
        jsNumberFinite (jsTrim (stripCommas raw)) = none)) ∧
      (∀ v, raw ≠ "" → jsTrim (stripCommas raw) ≠ "" →
        jsNumberFinite (jsTrim (stripCommas raw)) = some v → parseMoneyInput raw = some v) ∧
      parseMoneyInput moneySample = some 2500000 := by
  refine ⟨?_, ?_, ?_⟩
  · by_cases h1 : raw = ""
    · simp [parseMoneyInput, h1]
    · by_cases h2 : jsTrim (stripCommas raw) = ""
      · simp [parseMoneyInput, h1, h2]
      · cases hj : jsNumberFinite (jsTrim (stripCommas raw)) with
        | none => simp [parseMoneyInput, h1, h2, hj]
        | some v => simp [parseMoneyInput, h1, h2, hj]
  · intro v h1 h2 hj
    simp [parseMoneyInput, h1, h2, hj]
  · have key : parseMoneyInput moneySample =
        some ((1 : ℚ) * ((digitsVal ['2', '5', '0', '0', '0', '0', '0'] : ℕ) : ℚ)) := rfl
    have d : (digitsVal ['2', '5', '0', '0', '0', '0', '0'] : ℕ) = 2500000 := rfl
    rw [key, d]
    norm_num

/-- C10 witness: the implication branch of the theorem applied at the
documented input, with every hypothesis discharged concretely. -/
theorem parseMoneyInput_spec_witness :
    parseMoneyInput moneySample = some 2500000 := by
  have hd : (digitsVal ['2', '5', '0', '0', '0', '0', '0'] : ℕ) = 2500000 := rfl
  have hj : jsNumberFinite (jsTrim (stripCommas moneySample)) = some 2500000 := by
    have key : jsNumberFinite (jsTrim (stripCommas moneySample)) =
        some ((1 : ℚ) * ((digitsVal ['2', '5', '0', '0', '0', '0', '0'] : ℕ) : ℚ)) := rfl
    rw [key, hd]
    norm_num
  exact (parseMoneyInput_spec moneySample).2.1 2500000 (by decide) (by decide) hj

/-- C1: modelled from the spec, every period the close transition
accepts produces a snapshot whose InvestorBalance closing balances sum
exactly to the NavSnapshot closing NAV: the checklist embeds the
reconciliation gate, which demands a mismatch of exactly zero before
the Snapshot Builder runs. -/
theorem close_reconciliation_invariant (p : PeriodData) (snap : NavSnapshot)
    (h : closePeriod p = Except.ok snap) :
    (snap.balances.map InvestorBalance.closing_balance).sum = snap.closing_nav := by
  unfold closePeriod at h
  split at h
  · rename_i hc
    injection h with h2
    subst h2
    have hrec : (periodReconciliation p).reconciled = true := by
      unfold can_close at hc
      simp only [Bool.and_eq_true] at hc
      exact hc.1.2
    have hm : (periodAllocation p).closing_nav -
        sumClosingBalances (periodAllocation p).positions = 0 := by
      unfold periodReconciliation reconcile at hrec
      simpa using hrec
    dsimp only
    rw [List.map_map]
    have hcomp : (InvestorBalance.closing_balance ∘ freezeBalance) =
        InvestorPosition.closing_balance := rfl
    rw [hcomp]
    have heq := sub_eq_zero.mp hm
    unfold sumClosingBalances at heq
    exact heq.symm
  · split at h
    · exact Except.noConfusion h
    · exact Except.noConfusion h

/-- C1 witness helper: the single position Scenario A allocates. -/
theorem scenario_alloc :
    periodAllocation scenarioPeriod =
      { positions := [{ opening_balance := 10000000,
                        ownership_pct := 1,
                        income_share := 500000,
                        expense_share := 100000,
                        net_allocation := 400000,
                        contributions := 0,
                        withdrawals := 0,
                        closing_balance := 10400000 }],
        closing_nav := 10400000 } := by
  have hpct : ownershipPct (10000000 : ℚ) 10000000 = 1 := by
    unfold ownershipPct
    rw [if_neg (by norm_num)]
    norm_num
    have := roundTo_natCast 6 1
    push_cast at this
    exact this
  have hinc : roundTo 2 ((1 : ℚ) * 500000) = 500000 := by
    rw [one_mul]
    have := roundTo_natCast 2 500000
    push_cast at this
    exact this
  have hexp : roundTo 2 ((1 : ℚ) * 100000) = 100000 := by
    rw [one_mul]
    have := roundTo_natCast 2 100000
    push_cast at this
    exact this
  unfold periodAllocation allocatePeriod scenarioPeriod closingNav allocateInvestor scenarioInvestor
  simp only [List.map_cons, List.map_nil]
  rw [hpct, hinc, hexp]
  norm_num

/-- C1 witness: Scenario A of the spec closes successfully and its
snapshot reconciles exactly. -/
theorem close_reconciliation_invariant_witness :
    (scenarioSnapshot.balances.map InvestorBalance.closing_balance).sum =
      scenarioSnapshot.closing_nav := by
  have halloc := scenario_alloc
  have hrecon : periodReconciliation scenarioPeriod = { mismatch := 0, reconciled := true } := by
    unfold periodReconciliation reconcile
    rw [halloc]
    simp [sumClosingBalances]
  have hclose : closePeriod scenarioPeriod = Except.ok scenarioSnapshot := by
    have hflags : periodChecklist scenarioPeriod =
        { has_positions := true, has_ledger_entries := true, submitted_for_review := true,
          reconciled := true, not_already_closed := true } := by
      unfold periodChecklist
      rw [hrecon]
      simp [scenarioPeriod]
    have hcond : can_close
        { has_positions := true, has_ledger_entries := true, submitted_for_review := true,
          reconciled := true, not_already_closed := true } = true := rfl
    unfold closePeriod
    rw [hflags, if_pos hcond, halloc]
    simp [freezeBalance, scenarioSnapshot]
  exact close_reconciliation_invariant scenarioPeriod scenarioSnapshot hclose
